import Mathlib

/-
Verification development for the first-order Stefan-Maxwell electrolyte
diffusion submodel and the lead-acid interfacial-current submodels.

Shallow embedding conventions:
* Every symbolic ScalarField is represented by its rational value at the
  (implicit) evaluation point, so a ScalarField is a term of type Rat.
* A SpatialField over one sub-domain is a function Rat -> Rat from the global
  cell coordinate x to the field value; the closed-form polynomial profiles of
  the source become literal Lean functions.
* The VariableStore is an association list from string keys to rational
  values; dictionary update prepends entries so that later lookups see the
  new bindings, matching Python dict.update overriding semantics.
* Fallible dictionary indexing (Python KeyError) is an Except String result
  whose error value is the missing key.
* The porosity exponents b_n, b_s, b_p are modelled as natural numbers so
  that the power operation stays executable over Rat.
-/

namespace PyBaMM

/-- VariableStore: a string-keyed association list of rational field values. -/
abbrev Store := List (String × ℚ)

/-- First-match lookup in the VariableStore. -/
def Store.get : Store → String → Option ℚ
  | [], _ => none
  | (k, v) :: rest, key => if k = key then some v else Store.get rest key

/-- Python dictionary indexing: a missing key raises KeyError, modelled as an
Except error carrying the key. Python calls the dictionary argument
"variables"; that word is reserved in Lean, so the embedding names it vars. -/
def lookupE (vars : Store) (key : String) : Except String ℚ :=
  match vars.get key with
  | some v => .ok v
  | none => .error key

/-- One side of a reaction registry entry: stoichiometric coefficient s and
the name aj of the current-density variable. -/
structure ReactionSide where
  s : ℚ
  aj : String

/-- A reaction registry entry with a Negative and a Positive side. -/
structure Reaction where
  neg : ReactionSide
  pos : ReactionSide

/-- Python str.lower for the ASCII variable names of the source, written
as a structural map over the character list so that it evaluates inside
the kernel (String.toLower of core is well-founded recursion and does not
reduce definitionally). -/
def strLower (s : String) : String :=
  ⟨s.data.map Char.toLower⟩

/-- The domain-qualified VariableStore key built by the source for a
reaction side: the string "Leading-order x-averaged " followed by the
lowercased current-density name. -/
def qualifiedKey (aj : String) : String :=
  "Leading-order x-averaged " ++ strLower aj

namespace FirstOrder

/-- Sub-domain thicknesses l_n, l_s, l_p. -/
structure Geometry where
  l_n : ℚ
  l_s : ℚ
  l_p : ℚ

/-- The per-invocation scalar inputs of the flux/concentration synthesizer
and the zero-mean stitcher: net sources, diffusivities and leading-order
porosities for the three sub-domains. -/
structure Fields where
  rhs_n : ℚ
  rhs_s : ℚ
  rhs_p : ℚ
  D_e_n : ℚ
  D_e_s : ℚ
  D_e_p : ℚ
  eps_n_0 : ℚ
  eps_s_0 : ℚ
  eps_p_0 : ℚ

/-- Combined time derivative for the negative electrode:
d_epsc_n_0_dt = c_e_0 * deps_n_0_dt + eps_n_0 * dc_e_0_dt. -/
def d_epsc_n_0_dt (c_e_0 deps_n_0_dt eps_n_0 dc_e_0_dt : ℚ) : ℚ :=
  c_e_0 * deps_n_0_dt + eps_n_0 * dc_e_0_dt

/-- Combined time derivative for the separator:
d_epsc_s_0_dt = eps_s_0 * dc_e_0_dt. -/
def d_epsc_s_0_dt (eps_s_0 dc_e_0_dt : ℚ) : ℚ :=
  eps_s_0 * dc_e_0_dt

/-- Combined time derivative for the positive electrode:
d_epsc_p_0_dt = c_e_0 * deps_p_0_dt + eps_p_0 * dc_e_0_dt. -/
def d_epsc_p_0_dt (c_e_0 deps_p_0_dt eps_p_0 dc_e_0_dt : ℚ) : ℚ :=
  c_e_0 * deps_p_0_dt + eps_p_0 * dc_e_0_dt

/-- Negative-electrode flux profile: N_e_n_1 = -outer(rhs_n, x_n). -/
def N_e_n_1 (f : Fields) (x : ℚ) : ℚ :=
  -(f.rhs_n * x)

/-- Separator flux profile:
N_e_s_1 = -(outer(rhs_s, x_s - l_n) + Broadcast(rhs_n * l_n)). -/
def N_e_s_1 (g : Geometry) (f : Fields) (x : ℚ) : ℚ :=
  -(f.rhs_s * (x - g.l_n) + f.rhs_n * g.l_n)

/-- Positive-electrode flux profile: N_e_p_1 = -outer(rhs_p, x_p - 1). -/
def N_e_p_1 (f : Fields) (x : ℚ) : ℚ :=
  -(f.rhs_p * (x - 1))

/-- Negative-electrode first-order concentration before the zero-mean
correction: c_e_n_1 = outer(rhs_n / (2 * D_e_n), x_n ^ 2 - l_n ^ 2). -/
def c_e_n_1 (g : Geometry) (f : Fields) (x : ℚ) : ℚ :=
  f.rhs_n / (2 * f.D_e_n) * (x ^ 2 - g.l_n ^ 2)

/-- Separator first-order concentration before the zero-mean correction:
c_e_s_1 = outer(rhs_s / 2, (x_s - l_n) ^ 2)
        + outer(rhs_n * l_n / D_e_s, x_s - l_n).
Note: the quadratic term divides by 2 only, with no D_e_s factor, exactly as
in the source. -/
def c_e_s_1 (g : Geometry) (f : Fields) (x : ℚ) : ℚ :=
  f.rhs_s / 2 * (x - g.l_n) ^ 2 + f.rhs_n * g.l_n / f.D_e_s * (x - g.l_n)

/-- Positive-electrode first-order concentration before the zero-mean
correction:
c_e_p_1 = outer(rhs_p / (2 * D_e_p), (x_p - 1) ^ 2 - l_p ^ 2)
        + Broadcast(rhs_s * l_s ^ 2 / (2 * D_e_s) + rhs_n * l_n * l_s / D_e_s). -/
def c_e_p_1 (g : Geometry) (f : Fields) (x : ℚ) : ℚ :=
  f.rhs_p / (2 * f.D_e_p) * ((x - 1) ^ 2 - g.l_p ^ 2) +
    (f.rhs_s * g.l_s ^ 2 / (2 * f.D_e_s) + f.rhs_n * g.l_n * g.l_s / f.D_e_s)

/-- Recorded negative-electrode average before correction:
c_e_n_1_av = -rhs_n * l_n ^ 3 / (3 * D_e_n). -/
def c_e_n_1_av (g : Geometry) (f : Fields) : ℚ :=
  -f.rhs_n * g.l_n ^ 3 / (3 * f.D_e_n)

/-- Recorded separator average before correction:
c_e_s_1_av = (rhs_s * l_s ^ 3 / 6 + rhs_n * l_n * l_s ^ 2 / 2) / D_e_s. -/
def c_e_s_1_av (g : Geometry) (f : Fields) : ℚ :=
  (f.rhs_s * g.l_s ^ 3 / 6 + f.rhs_n * g.l_n * g.l_s ^ 2 / 2) / f.D_e_s

/-- Recorded positive-electrode average before correction:
c_e_p_1_av = -rhs_p * l_p ^ 3 / (3 * D_e_p)
           + rhs_s * l_s ^ 2 * l_p / (2 * D_e_s)
           + rhs_n * l_n * l_s * l_p / D_e_s. -/
def c_e_p_1_av (g : Geometry) (f : Fields) : ℚ :=
  -f.rhs_p * g.l_p ^ 3 / (3 * f.D_e_p) +
    f.rhs_s * g.l_s ^ 2 * g.l_p / (2 * f.D_e_s) +
    f.rhs_n * g.l_n * g.l_s * g.l_p / f.D_e_s

/-- The zero-mean correction constant:
A_e = -(eps_n_0 * c_e_n_1_av + eps_s_0 * c_e_s_1_av + eps_p_0 * c_e_p_1_av)
      / (l_n * eps_n_0 + l_s * eps_s_0 + l_p * eps_p_0). -/
def A_e (g : Geometry) (f : Fields) : ℚ :=
  -(f.eps_n_0 * c_e_n_1_av g f + f.eps_s_0 * c_e_s_1_av g f +
      f.eps_p_0 * c_e_p_1_av g f) /
    (g.l_n * f.eps_n_0 + g.l_s * f.eps_s_0 + g.l_p * f.eps_p_0)

/-- Corrected negative-electrode concentration profile (after the
c_e_n_1 += Broadcast(A_e) update). -/
def c_e_n_1_corr (g : Geometry) (f : Fields) (x : ℚ) : ℚ :=
  c_e_n_1 g f x + A_e g f

/-- Corrected separator concentration profile. -/
def c_e_s_1_corr (g : Geometry) (f : Fields) (x : ℚ) : ℚ :=
  c_e_s_1 g f x + A_e g f

/-- Corrected positive-electrode concentration profile. -/
def c_e_p_1_corr (g : Geometry) (f : Fields) (x : ℚ) : ℚ :=
  c_e_p_1 g f x + A_e g f

/-- Corrected negative-electrode average (after c_e_n_1_av += A_e). -/
def c_e_n_1_av_corr (g : Geometry) (f : Fields) : ℚ :=
  c_e_n_1_av g f + A_e g f

/-- Corrected separator average (after c_e_s_1_av += A_e). -/
def c_e_s_1_av_corr (g : Geometry) (f : Fields) : ℚ :=
  c_e_s_1_av g f + A_e g f

/-- Corrected positive-electrode average (after c_e_p_1_av += A_e). -/
def c_e_p_1_av_corr (g : Geometry) (f : Fields) : ℚ :=
  c_e_p_1_av g f + A_e g f

/-- The fixed parameters of the FirstOrder submodel: sub-domain thicknesses,
Bruggeman exponents, the ratio C_e, and the external diffusivity law D_e. -/
structure Params where
  l_n : ℚ
  l_s : ℚ
  l_p : ℚ
  b_n : ℕ
  b_s : ℕ
  b_p : ℕ
  C_e : ℚ
  D_e : ℚ → ℚ → ℚ

/-- The leading-order quantities unpacked from the VariableStore at the top
of get_coupled_variables, in source order. -/
structure Inputs where
  T_0 : ℚ
  c_e_0 : ℚ
  dc_e_0_dt : ℚ
  eps_n_0 : ℚ
  eps_s_0 : ℚ
  eps_p_0 : ℚ
  deps_n_0_dt : ℚ
  deps_p_0_dt : ℚ

/-- The eight leading-order lookups of lines 36 to 48 of the source, in
order; the first missing key aborts with that key as the error. -/
def unpack (vars : Store) : Except String Inputs := do
  let T_0 ← lookupE vars "Leading-order cell temperature"
  let c_e_0 ← lookupE vars "Leading-order x-averaged electrolyte concentration"
  let dc_e_0_dt ← lookupE vars "Leading-order electrolyte concentration change"
  let eps_n_0 ← lookupE vars "Leading-order x-averaged negative electrode porosity"
  let eps_s_0 ← lookupE vars "Leading-order x-averaged separator porosity"
  let eps_p_0 ← lookupE vars "Leading-order x-averaged positive electrode porosity"
  let deps_n_0_dt ← lookupE vars
    "Leading-order x-averaged negative electrode porosity change"
  let deps_p_0_dt ← lookupE vars
    "Leading-order x-averaged positive electrode porosity change"
  pure ⟨T_0, c_e_0, dc_e_0_dt, eps_n_0, eps_s_0, eps_p_0, deps_n_0_dt, deps_p_0_dt⟩

/-- The reaction sum of the source, for one side (Negative or Positive):
the sum over the registry of s * vars[qualifiedKey aj], looked up in
registry order; the first missing key aborts with that key. -/
def reactionSum (vars : Store) (side : Reaction → ReactionSide) :
    List Reaction → Except String ℚ
  | [] => .ok 0
  | r :: rest => do
    let v ← lookupE vars (qualifiedKey (side r).aj)
    let acc ← reactionSum vars side rest
    pure ((side r).s * v + acc)

/-- Evaluation of a three-piece Concatenation at a global coordinate.
Modelled from the spec: a PiecewiseField is the ordered concatenation of the
three SpatialFields over negative electrode, separator, positive electrode
(the Concatenation node itself is framework code outside src); the negative
electrode occupies x up to l_n and the separator x up to l_n + l_s. -/
def cat3 (g : Geometry) (fn fs fp : ℚ → ℚ) (x : ℚ) : ℚ :=
  if x ≤ g.l_n then fn x else if x ≤ g.l_n + g.l_s then fs x else fp x

/-- Everything get_coupled_variables produces: the assembled Fields record,
the geometry, the correction constant, the corrected per-domain profiles and
averages, the two PiecewiseFields, and the updated VariableStore. -/
structure Result where
  fields : Fields
  geom : Geometry
  A_e : ℚ
  c_e_n_1 : ℚ → ℚ
  c_e_s_1 : ℚ → ℚ
  c_e_p_1 : ℚ → ℚ
  c_e_n_1_av : ℚ
  c_e_s_1_av : ℚ
  c_e_p_1_av : ℚ
  c_e : ℚ → ℚ
  N_e : ℚ → ℚ
  vars : Store

/-- The pure tail of get_coupled_variables (lines 50 to 136): everything
after the effectful dictionary lookups. The three x-averaged first-order
concentration entries are the store updates of lines 123 to 129 of the
source; the update of line 121 (concentration variables) and line 134 (flux
variables) go through base-class helpers that are not under src, modelled
from the spec output contract as recording the two PiecewiseFields, which
this embedding keeps in the c_e and N_e components of the Result. -/
def assemble (param : Params) (inp : Inputs) (negSum posSum : ℚ)
    (vars : Store) : Result :=
  let g : Geometry := ⟨param.l_n, param.l_s, param.l_p⟩
  let f : Fields :=
    { rhs_n := d_epsc_n_0_dt inp.c_e_0 inp.deps_n_0_dt inp.eps_n_0 inp.dc_e_0_dt
        - negSum
      rhs_s := d_epsc_s_0_dt inp.eps_s_0 inp.dc_e_0_dt
      rhs_p := d_epsc_p_0_dt inp.c_e_0 inp.deps_p_0_dt inp.eps_p_0 inp.dc_e_0_dt
        - posSum
      D_e_n := inp.eps_n_0 ^ param.b_n * param.D_e inp.c_e_0 inp.T_0
      D_e_s := inp.eps_s_0 ^ param.b_s * param.D_e inp.c_e_0 inp.T_0
      D_e_p := inp.eps_p_0 ^ param.b_p * param.D_e inp.c_e_0 inp.T_0
      eps_n_0 := inp.eps_n_0
      eps_s_0 := inp.eps_s_0
      eps_p_0 := inp.eps_p_0 }
  { fields := f
    geom := g
    A_e := A_e g f
    c_e_n_1 := c_e_n_1_corr g f
    c_e_s_1 := c_e_s_1_corr g f
    c_e_p_1 := c_e_p_1_corr g f
    c_e_n_1_av := c_e_n_1_av_corr g f
    c_e_s_1_av := c_e_s_1_av_corr g f
    c_e_p_1_av := c_e_p_1_av_corr g f
    c_e := cat3 g
      (fun x => inp.c_e_0 + param.C_e * c_e_n_1_corr g f x)
      (fun x => inp.c_e_0 + param.C_e * c_e_s_1_corr g f x)
      (fun x => inp.c_e_0 + param.C_e * c_e_p_1_corr g f x)
    N_e := cat3 g
      (fun x => param.C_e * N_e_n_1 f x)
      (fun x => param.C_e * N_e_s_1 g f x)
      (fun x => param.C_e * N_e_p_1 f x)
    vars :=
      ("X-averaged first-order negative electrolyte concentration",
        c_e_n_1_av_corr g f) ::
      ("X-averaged first-order separator concentration",
        c_e_s_1_av_corr g f) ::
      ("X-averaged first-order positive electrolyte concentration",
        c_e_p_1_av_corr g f) :: vars }

/-- FirstOrder.get_coupled_variables: unpack the leading-order inputs, form
the negative- and positive-side reaction sums (in that order, as in the
source), then assemble the first-order fields and the updated store; any
missing key propagates as an error and in that case the store is untouched
and no first-order field is produced. -/
def getCoupledVariables (param : Params) (reactions : List Reaction)
    (vars : Store) : Except String Result :=
  match unpack vars with
  | .error k => .error k
  | .ok inp =>
    match reactionSum vars (fun r => r.neg) reactions with
    | .error k => .error k
    | .ok negSum =>
      match reactionSum vars (fun r => r.pos) reactions with
      | .error k => .error k
      | .ok posSum => .ok (assemble param inp negSum posSum vars)

end FirstOrder

/-- Parameters used by the lead-acid interfacial submodels. -/
structure LeadAcidParams where
  m_n : ℚ
  m_p : ℚ
  c_w : ℚ → ℚ
  j0_Ox_n_ref : ℚ
  j0_Ox_p_ref : ℚ
  c_ox_ref : ℚ

namespace MainReaction

/-- MainReaction.get_exchange_current_densities with the domain already
resolved (the source defaults a missing domain argument to c_e.domain
before comparing). The Python body is an if/elif chain with no else branch:
a domain matching neither electrode falls through and the function returns
None, modelled as the none case of an Option. -/
def get_exchange_current_densities (param : LeadAcidParams) (c_e : ℚ)
    (domain : List String) : Option ℚ :=
  if domain = ["negative electrode"] then some (param.m_n * c_e)
  else if domain = ["positive electrode"] then
    some (param.m_p * c_e ^ 2 * param.c_w c_e)
  else none

end MainReaction

namespace SrinivasanOxygenReaction

/-- The local variable j0_Ox_ref of
SrinivasanOxygenReaction.get_exchange_current_densities: assigned only in
the two electrode branches of the if/elif chain, left unbound otherwise. -/
def j0_Ox_ref (param : LeadAcidParams) (domain : List String) : Option ℚ :=
  if domain = ["negative electrode"] then some param.j0_Ox_n_ref
  else if domain = ["positive electrode"] then some param.j0_Ox_p_ref
  else none

/-- SrinivasanOxygenReaction.get_exchange_current_densities with the domain
already resolved. The source reads j0_Ox_ref unconditionally after the
if/elif chain, so a domain matching neither electrode raises
UnboundLocalError at the return statement, modelled as an error result. -/
def get_exchange_current_densities (param : LeadAcidParams) (c_e c_o : ℚ)
    (domain : List String) : Except String (ℚ × ℚ) :=
  match j0_Ox_ref param domain with
  | some j0 => .ok (j0 * c_e, j0 * c_e * c_o / param.c_ox_ref)
  | none => .error "UnboundLocalError: j0_Ox_ref referenced before assignment"

end SrinivasanOxygenReaction

@[simp]
theorem exceptBind_ok {ε α β : Type} (a : α) (f : α → Except ε β) :
    (Except.ok a >>= f) = f a := rfl

@[simp]
theorem exceptBind_error {ε α β : Type} (e : ε) (f : α → Except ε β) :
    ((Except.error e : Except ε α) >>= f) = Except.error e := rfl

@[simp]
theorem exceptPure_eq_ok {ε α : Type} (a : α) :
    (pure a : Except ε α) = Except.ok a := rfl

namespace FirstOrder

theorem unpack_eq_ok {vars : Store} {t c dc en es ep dn dp : ℚ}
    (h1 : vars.get "Leading-order cell temperature" = some t)
    (h2 : vars.get "Leading-order x-averaged electrolyte concentration" = some c)
    (h3 : vars.get "Leading-order electrolyte concentration change" = some dc)
    (h4 : vars.get "Leading-order x-averaged negative electrode porosity" = some en)
    (h5 : vars.get "Leading-order x-averaged separator porosity" = some es)
    (h6 : vars.get "Leading-order x-averaged positive electrode porosity" = some ep)
    (h7 : vars.get "Leading-order x-averaged negative electrode porosity change"
      = some dn)
    (h8 : vars.get "Leading-order x-averaged positive electrode porosity change"
      = some dp) :
    unpack vars = .ok ⟨t, c, dc, en, es, ep, dn, dp⟩ := by
  simp [unpack, lookupE, h1, h2, h3, h4, h5, h6, h7, h8]

theorem reactionSum_ok_of_isSome (vars : Store) (side : Reaction → ReactionSide) :
    ∀ rs : List Reaction,
      (∀ r ∈ rs, (vars.get (qualifiedKey (side r).aj)).isSome) →
      ∃ q, reactionSum vars side rs = .ok q
  | [], _ => ⟨0, rfl⟩
  | r :: rest, h => by
    obtain ⟨v, hv⟩ := Option.isSome_iff_exists.mp (h r (by simp))
    obtain ⟨q, hq⟩ :=
      reactionSum_ok_of_isSome vars side rest (fun r2 h2 => h r2 (by simp [h2]))
    exact ⟨(side r).s * v + q, by simp [reactionSum, lookupE, hv, hq]⟩

theorem reactionSum_error_of_missing (vars : Store) (side : Reaction → ReactionSide) :
    ∀ (rs : List Reaction) (r : Reaction), r ∈ rs →
      vars.get (qualifiedKey (side r).aj) = none →
      ∃ k, reactionSum vars side rs = .error k ∧ vars.get k = none
  | [], r, hr, _ => absurd hr (List.not_mem_nil r)
  | r2 :: rest, r, hr, hm => by
    cases hget : vars.get (qualifiedKey (side r2).aj) with
    | none => exact ⟨_, by simp [reactionSum, lookupE, hget], hget⟩
    | some v =>
      rcases List.mem_cons.mp hr with heq | hmem
      · subst heq; rw [hget] at hm; exact absurd hm (by simp)
      · obtain ⟨k, hk, hkn⟩ :=
          reactionSum_error_of_missing vars side rest r hmem hm
        exact ⟨k, by simp [reactionSum, lookupE, hget, hk], hkn⟩

theorem reactionSum_all_zero (vars : Store) (side : Reaction → ReactionSide) :
    ∀ rs : List Reaction,
      (∀ r ∈ rs, vars.get (qualifiedKey (side r).aj) = some 0) →
      reactionSum vars side rs = .ok 0
  | [], _ => rfl
  | r :: rest, h => by
    have h0 := h r (by simp)
    have hrest := reactionSum_all_zero vars side rest (fun r2 h2 => h r2 (by simp [h2]))
    simp [reactionSum, lookupE, h0, hrest]

theorem getCoupledVariables_eq_ok (param : Params) (reactions : List Reaction)
    (vars : Store) (inp : Inputs) (negSum posSum : ℚ)
    (h1 : unpack vars = .ok inp)
    (h2 : reactionSum vars (fun r => r.neg) reactions = .ok negSum)
    (h3 : reactionSum vars (fun r => r.pos) reactions = .ok posSum) :
    getCoupledVariables param reactions vars
      = .ok (assemble param inp negSum posSum vars) := by
  simp [getCoupledVariables, h1, h2, h3]

theorem reactionSum_error_get_none (vars : Store) (side : Reaction → ReactionSide) :
    ∀ (rs : List Reaction) (k : String),
      reactionSum vars side rs = .error k → vars.get k = none
  | [], k, h => by simp [reactionSum] at h
  | r :: rest, k, h => by
    revert h
    cases hget : vars.get (qualifiedKey (side r).aj) with
    | none =>
      intro h
      simp [reactionSum, lookupE, hget] at h
      rw [← h]; exact hget
    | some v =>
      cases hrest : reactionSum vars side rest with
      | error k2 =>
        intro h
        simp [reactionSum, lookupE, hget, hrest] at h
        rw [← h]; exact reactionSum_error_get_none vars side rest k2 hrest
      | ok q => intro h; simp [reactionSum, lookupE, hget, hrest] at h

/-- The correction constant exactly as the specification words it: minus the
sum over sub-domains of porosity times volume-average, divided by the sum
over sub-domains of thickness times porosity. -/
def A_spec (g : Geometry) (f : Fields) : ℚ :=
  -(f.eps_n_0 * c_e_n_1_av g f + f.eps_s_0 * c_e_s_1_av g f +
      f.eps_p_0 * c_e_p_1_av g f) /
    (g.l_n * f.eps_n_0 + g.l_s * f.eps_s_0 + g.l_p * f.eps_p_0)

/-- The electrode-side combined time derivative exactly as the
specification words it: porosity times d(concentration)/dt plus
concentration times d(porosity)/dt. -/
def d_epsc_spec_electrode (eps dc_dt c deps_dt : ℚ) : ℚ :=
  eps * dc_dt + c * deps_dt

/-- The separator combined time derivative exactly as the specification
words it: porosity times d(concentration)/dt, with no porosity-change
term. -/
def d_epsc_spec_separator (eps dc_dt : ℚ) : ℚ :=
  eps * dc_dt

/-- Doubling (more generally scaling) the three net source fields while
holding diffusivities, porosities and thicknesses fixed. -/
def scaleSources (c : ℚ) (f : Fields) : Fields :=
  { f with rhs_n := c * f.rhs_n, rhs_s := c * f.rhs_s, rhs_p := c * f.rhs_p }

end FirstOrder

end PyBaMM

namespace PyBaMM

open FirstOrder

/-- Claim C1, as frozen, asserts flux continuity at both internal
boundaries for ALL source fields and thicknesses. The separator/positive
boundary fails for unconstrained sources: with l_n = l_s = l_p = 1/3,
rhs_n = rhs_s = 0 and rhs_p = 1, the separator-side flux at
x = l_n + l_s is 0 while the positive-side flux there is 1/3. -/
theorem C1_counterexample :
    N_e_s_1 ⟨1/3, 1/3, 1/3⟩ ⟨0, 0, 1, 1, 1, 1, 1, 1, 1⟩ (1/3 + 1/3) ≠
      N_e_p_1 ⟨0, 0, 1, 1, 1, 1, 1, 1, 1⟩ (1/3 + 1/3) := by
  norm_num [N_e_s_1, N_e_p_1]

/-- Claim C1 (amended): the negative/separator boundary flux match holds
unconditionally, for all source fields and thicknesses; the
separator/positive boundary flux match holds when the thicknesses sum to
one and the sources satisfy the global conservation relation
rhs_n * l_n + rhs_s * l_s + rhs_p * l_p = 0, not for all source fields. -/
theorem C1_flux_continuity_amended (g : Geometry) (f : Fields) :
    N_e_n_1 f g.l_n = N_e_s_1 g f g.l_n ∧
    (g.l_n + g.l_s + g.l_p = 1 →
      f.rhs_n * g.l_n + f.rhs_s * g.l_s + f.rhs_p * g.l_p = 0 →
      N_e_s_1 g f (g.l_n + g.l_s) = N_e_p_1 f (g.l_n + g.l_s)) := by
  constructor
  · simp only [N_e_n_1, N_e_s_1]; ring
  · intro hsum hcons
    simp only [N_e_s_1, N_e_p_1]
    linear_combination -hcons + f.rhs_p * hsum

/-- Witness for C1: the amended theorem applied at l_n = l_s = l_p = 1/3,
rhs_n = 1, rhs_s = 1, rhs_p = -2, a conserving source configuration, with
both implications discharged there. -/
theorem C1_witness :
    (N_e_n_1 ⟨1, 1, -2, 1, 1, 1, 1, 1, 1⟩
        (⟨1/3, 1/3, 1/3⟩ : Geometry).l_n =
      N_e_s_1 ⟨1/3, 1/3, 1/3⟩ ⟨1, 1, -2, 1, 1, 1, 1, 1, 1⟩
        (⟨1/3, 1/3, 1/3⟩ : Geometry).l_n) ∧
    (((1:ℚ)/3) + 1/3 + 1/3 = 1) ∧
    ((1:ℚ) * (1/3) + 1 * (1/3) + (-2) * (1/3) = 0) ∧
    (N_e_s_1 ⟨1/3, 1/3, 1/3⟩ ⟨1, 1, -2, 1, 1, 1, 1, 1, 1⟩ ((1:ℚ)/3 + 1/3) =
      N_e_p_1 ⟨1, 1, -2, 1, 1, 1, 1, 1, 1⟩ ((1:ℚ)/3 + 1/3)) :=
  ⟨(C1_flux_continuity_amended ⟨1/3, 1/3, 1/3⟩ ⟨1, 1, -2, 1, 1, 1, 1, 1, 1⟩).1,
    by norm_num, by norm_num,
    (C1_flux_continuity_amended ⟨1/3, 1/3, 1/3⟩ ⟨1, 1, -2, 1, 1, 1, 1, 1, 1⟩).2
      (by norm_num) (by norm_num)⟩

/-- Claim C2: the corrected concentration is claimed continuous in value at
both internal boundaries. The code violates this at the
separator/positive boundary: the quadratic term of c_e_s_1 is rhs_s / 2
with no D_e_s factor, while the boundary value carried into c_e_p_1 (and
the recorded average c_e_s_1_av) include the 1 / D_e_s factor, so the two
sides disagree whenever rhs_s is nonzero and D_e_s is not 1. At
l_n = l_s = l_p = 1/3, rhs_s = 1, rhs_n = rhs_p = 0, D_e_s = 2,
D_e_n = D_e_p = 1, porosities 1: the negative/separator match holds, but
the separator side of the second boundary is 7/162 while the positive side
is 5/324. -/
theorem C2_failing_input_eval :
    (c_e_n_1_corr ⟨1/3, 1/3, 1/3⟩ ⟨0, 1, 0, 1, 2, 1, 1, 1, 1⟩ (1/3) =
        c_e_s_1_corr ⟨1/3, 1/3, 1/3⟩ ⟨0, 1, 0, 1, 2, 1, 1, 1, 1⟩ (1/3)) ∧
    c_e_s_1_corr ⟨1/3, 1/3, 1/3⟩ ⟨0, 1, 0, 1, 2, 1, 1, 1, 1⟩ (1/3 + 1/3) ≠
      c_e_p_1_corr ⟨1/3, 1/3, 1/3⟩ ⟨0, 1, 0, 1, 2, 1, 1, 1, 1⟩ (1/3 + 1/3) := by
  constructor
  · norm_num [c_e_n_1_corr, c_e_s_1_corr, c_e_n_1, c_e_s_1]
  · norm_num [c_e_s_1_corr, c_e_p_1_corr, c_e_s_1, c_e_p_1, A_e,
      c_e_n_1_av, c_e_s_1_av, c_e_p_1_av]

/-- Claim C3, as frozen, weights the recorded corrected averages by both
porosity and thickness. The recorded values are the averages plus A_e
(not plus l_i * A_e), so the thickness-and-porosity-weighted sum of the
recorded values is not zero: at l_n = l_s = l_p = 1/3, porosities 1,
diffusivities 1, rhs_n = 1, rhs_s = rhs_p = 0 it equals -7/243. -/
theorem C3_counterexample :
    ¬ ((1:ℚ) * (1/3) * c_e_n_1_av_corr ⟨1/3, 1/3, 1/3⟩ ⟨1, 0, 0, 1, 1, 1, 1, 1, 1⟩ +
        1 * (1/3) * c_e_s_1_av_corr ⟨1/3, 1/3, 1/3⟩ ⟨1, 0, 0, 1, 1, 1, 1, 1, 1⟩ +
        1 * (1/3) * c_e_p_1_av_corr ⟨1/3, 1/3, 1/3⟩ ⟨1, 0, 0, 1, 1, 1, 1, 1, 1⟩ = 0) := by
  norm_num [c_e_n_1_av_corr, c_e_s_1_av_corr, c_e_p_1_av_corr, A_e,
    c_e_n_1_av, c_e_s_1_av, c_e_p_1_av]

/-- Claim C3 (amended): the zero-mean identity the correction constant
actually enforces is in integral form. For any geometry and fields with a
nonzero denominator, the porosity-weighted sum over sub-domains of
(uncorrected average value plus thickness times A_e) vanishes exactly; the
values recorded in the VariableStore are the averages plus A_e itself, and
their thickness-and-porosity-weighted sum is nonzero in general. -/
theorem C3_zero_mean_amended (g : Geometry) (f : Fields)
    (hden : g.l_n * f.eps_n_0 + g.l_s * f.eps_s_0 + g.l_p * f.eps_p_0 ≠ 0) :
    f.eps_n_0 * (c_e_n_1_av g f + g.l_n * A_e g f) +
      f.eps_s_0 * (c_e_s_1_av g f + g.l_s * A_e g f) +
      f.eps_p_0 * (c_e_p_1_av g f + g.l_p * A_e g f) = 0 := by
  unfold A_e
  generalize c_e_n_1_av g f = a
  generalize c_e_s_1_av g f = b
  generalize c_e_p_1_av g f = c
  field_simp
  ring

/-- Witness for C3: the amended identity at l_n = l_s = l_p = 1/3,
porosities 1, diffusivities 1, rhs_n = 2, rhs_s = 3, rhs_p = 5. -/
theorem C3_witness :
    ((1:ℚ)/3 * 1 + 1/3 * 1 + 1/3 * 1 ≠ 0) ∧
    ((⟨2, 3, 5, 1, 1, 1, 1, 1, 1⟩ : Fields).eps_n_0 *
        (c_e_n_1_av ⟨1/3, 1/3, 1/3⟩ ⟨2, 3, 5, 1, 1, 1, 1, 1, 1⟩ +
          (⟨1/3, 1/3, 1/3⟩ : Geometry).l_n * A_e ⟨1/3, 1/3, 1/3⟩ ⟨2, 3, 5, 1, 1, 1, 1, 1, 1⟩) +
      (⟨2, 3, 5, 1, 1, 1, 1, 1, 1⟩ : Fields).eps_s_0 *
        (c_e_s_1_av ⟨1/3, 1/3, 1/3⟩ ⟨2, 3, 5, 1, 1, 1, 1, 1, 1⟩ +
          (⟨1/3, 1/3, 1/3⟩ : Geometry).l_s * A_e ⟨1/3, 1/3, 1/3⟩ ⟨2, 3, 5, 1, 1, 1, 1, 1, 1⟩) +
      (⟨2, 3, 5, 1, 1, 1, 1, 1, 1⟩ : Fields).eps_p_0 *
        (c_e_p_1_av ⟨1/3, 1/3, 1/3⟩ ⟨2, 3, 5, 1, 1, 1, 1, 1, 1⟩ +
          (⟨1/3, 1/3, 1/3⟩ : Geometry).l_p * A_e ⟨1/3, 1/3, 1/3⟩ ⟨2, 3, 5, 1, 1, 1, 1, 1, 1⟩) = 0) :=
  ⟨by norm_num,
    C3_zero_mean_amended ⟨1/3, 1/3, 1/3⟩ ⟨2, 3, 5, 1, 1, 1, 1, 1, 1⟩ (by norm_num)⟩

/-- Claim C4: the stitcher computes the single constant
A = -(sum of porosity_i * average_i) / (sum of thickness_i * porosity_i)
and adds that same constant to each of the three concentration profiles and
each of the three recorded average values. The first conjunct compares the
code constant A_e with A_spec, a separate definition transcribed from the
specification wording; the rest relate every corrected quantity of the code
to its uncorrected counterpart plus A_e. -/
theorem C4_correction_constant (g : Geometry) (f : Fields) (x : ℚ) :
    A_e g f = A_spec g f ∧
    c_e_n_1_corr g f x = c_e_n_1 g f x + A_e g f ∧
    c_e_s_1_corr g f x = c_e_s_1 g f x + A_e g f ∧
    c_e_p_1_corr g f x = c_e_p_1 g f x + A_e g f ∧
    c_e_n_1_av_corr g f = c_e_n_1_av g f + A_e g f ∧
    c_e_s_1_av_corr g f = c_e_s_1_av g f + A_e g f ∧
    c_e_p_1_av_corr g f = c_e_p_1_av g f + A_e g f :=
  ⟨rfl, rfl, rfl, rfl, rfl, rfl, rfl⟩

/-- Claim C8: doubling the three net sources while holding diffusivities,
porosities and thicknesses fixed exactly doubles every flux profile, every
first-order concentration profile (corrected and uncorrected), every
average value (corrected and uncorrected), and the correction constant. -/
theorem C8_source_homogeneity (g : Geometry) (f : Fields) (x : ℚ) :
    N_e_n_1 (scaleSources 2 f) x = 2 * N_e_n_1 f x ∧
    N_e_s_1 g (scaleSources 2 f) x = 2 * N_e_s_1 g f x ∧
    N_e_p_1 (scaleSources 2 f) x = 2 * N_e_p_1 f x ∧
    c_e_n_1 g (scaleSources 2 f) x = 2 * c_e_n_1 g f x ∧
    c_e_s_1 g (scaleSources 2 f) x = 2 * c_e_s_1 g f x ∧
    c_e_p_1 g (scaleSources 2 f) x = 2 * c_e_p_1 g f x ∧
    c_e_n_1_av g (scaleSources 2 f) = 2 * c_e_n_1_av g f ∧
    c_e_s_1_av g (scaleSources 2 f) = 2 * c_e_s_1_av g f ∧
    c_e_p_1_av g (scaleSources 2 f) = 2 * c_e_p_1_av g f ∧
    A_e g (scaleSources 2 f) = 2 * A_e g f ∧
    c_e_n_1_corr g (scaleSources 2 f) x = 2 * c_e_n_1_corr g f x ∧
    c_e_s_1_corr g (scaleSources 2 f) x = 2 * c_e_s_1_corr g f x ∧
    c_e_p_1_corr g (scaleSources 2 f) x = 2 * c_e_p_1_corr g f x ∧
    c_e_n_1_av_corr g (scaleSources 2 f) = 2 * c_e_n_1_av_corr g f ∧
    c_e_s_1_av_corr g (scaleSources 2 f) = 2 * c_e_s_1_av_corr g f ∧
    c_e_p_1_av_corr g (scaleSources 2 f) = 2 * c_e_p_1_av_corr g f := by
  refine ⟨?_, ?_, ?_, ?_, ?_, ?_, ?_, ?_, ?_, ?_, ?_, ?_, ?_, ?_, ?_, ?_⟩ <;>
    simp only [scaleSources, N_e_n_1, N_e_s_1, N_e_p_1, c_e_n_1, c_e_s_1, c_e_p_1,
      c_e_n_1_av, c_e_s_1_av, c_e_p_1_av, A_e, c_e_n_1_corr, c_e_s_1_corr,
      c_e_p_1_corr, c_e_n_1_av_corr, c_e_s_1_av_corr, c_e_p_1_av_corr] <;>
    ring

/-- Claim C9: the time-derivative composer produces exactly
porosity * dc/dt + c * dporosity/dt for each electrode sub-domain and
exactly porosity * dc/dt for the separator, compared against definitions
transcribed from the specification wording. -/
theorem C9_time_derivative_composer
    (c_e_0 dc_e_0_dt eps_n eps_s eps_p deps_n deps_p : ℚ) :
    d_epsc_n_0_dt c_e_0 deps_n eps_n dc_e_0_dt =
        d_epsc_spec_electrode eps_n dc_e_0_dt c_e_0 deps_n ∧
    d_epsc_s_0_dt eps_s dc_e_0_dt = d_epsc_spec_separator eps_s dc_e_0_dt ∧
    d_epsc_p_0_dt c_e_0 deps_p eps_p dc_e_0_dt =
        d_epsc_spec_electrode eps_p dc_e_0_dt c_e_0 deps_p := by
  refine ⟨?_, rfl, ?_⟩ <;>
    simp only [d_epsc_n_0_dt, d_epsc_p_0_dt, d_epsc_spec_electrode] <;> ring

/-- A VariableStore holding exactly the eight leading-order quantities that
get_coupled_variables unpacks, with porosities 1 and zero time
derivatives. -/
def baseStore : Store :=
  [("Leading-order cell temperature", 2),
   ("Leading-order x-averaged electrolyte concentration", 5),
   ("Leading-order electrolyte concentration change", 0),
   ("Leading-order x-averaged negative electrode porosity", 1),
   ("Leading-order x-averaged separator porosity", 1),
   ("Leading-order x-averaged positive electrode porosity", 1),
   ("Leading-order x-averaged negative electrode porosity change", 0),
   ("Leading-order x-averaged positive electrode porosity change", 0)]

/-- Degenerate geometry: all three thicknesses zero, so the zero-mean
denominator l_n * eps_n_0 + l_s * eps_s_0 + l_p * eps_p_0 vanishes while
the porosities in baseStore are nonzero. -/
def degParams : Params := ⟨0, 0, 0, 0, 0, 0, 1, fun _ _ => 1⟩

/-- Non-degenerate parameters used by witnesses. -/
def okParams : Params := ⟨1/3, 1/3, 1/3, 1, 1, 1, 1, fun c T => c + T⟩

/-- Claim C5, as frozen, requires a fatal degenerate-geometry failure when
the zero-mean denominator is zero. The code has no such check: with all
three thicknesses zero and porosities 1, get_coupled_variables still
returns a result. -/
theorem C5_counterexample :
    (getCoupledVariables degParams [] baseStore).isOk = true := by
  rfl

/-- Claim C5 (amended): get_coupled_variables performs no degenerate
geometry check at all. Whenever every required leading-order key is present
and every reaction key is present, it returns a result; nothing inspects
the denominator, so the division is formed silently even when the
denominator is zero. -/
theorem C5_no_degeneracy_guard (param : Params) (reactions : List Reaction)
    (vars : Store)
    (h1 : (vars.get "Leading-order cell temperature").isSome = true)
    (h2 : (vars.get "Leading-order x-averaged electrolyte concentration").isSome = true)
    (h3 : (vars.get "Leading-order electrolyte concentration change").isSome = true)
    (h4 : (vars.get "Leading-order x-averaged negative electrode porosity").isSome = true)
    (h5 : (vars.get "Leading-order x-averaged separator porosity").isSome = true)
    (h6 : (vars.get "Leading-order x-averaged positive electrode porosity").isSome = true)
    (h7 : (vars.get
      "Leading-order x-averaged negative electrode porosity change").isSome = true)
    (h8 : (vars.get
      "Leading-order x-averaged positive electrode porosity change").isSome = true)
    (hr : ∀ r ∈ reactions, (vars.get (qualifiedKey r.neg.aj)).isSome = true ∧
      (vars.get (qualifiedKey r.pos.aj)).isSome = true) :
    ∃ res, getCoupledVariables param reactions vars = .ok res := by
  obtain ⟨t, ht⟩ := Option.isSome_iff_exists.mp h1
  obtain ⟨c, hc⟩ := Option.isSome_iff_exists.mp h2
  obtain ⟨dc, hdc⟩ := Option.isSome_iff_exists.mp h3
  obtain ⟨en, hen⟩ := Option.isSome_iff_exists.mp h4
  obtain ⟨es, hes⟩ := Option.isSome_iff_exists.mp h5
  obtain ⟨ep, hep⟩ := Option.isSome_iff_exists.mp h6
  obtain ⟨dn, hdn⟩ := Option.isSome_iff_exists.mp h7
  obtain ⟨dp, hdp⟩ := Option.isSome_iff_exists.mp h8
  obtain ⟨negSum, hneg⟩ := reactionSum_ok_of_isSome vars (fun r => r.neg) reactions
    (fun r h => (hr r h).1)
  obtain ⟨posSum, hpos⟩ := reactionSum_ok_of_isSome vars (fun r => r.pos) reactions
    (fun r h => (hr r h).2)
  exact ⟨_, getCoupledVariables_eq_ok param reactions vars _ negSum posSum
    (unpack_eq_ok ht hc hdc hen hes hep hdn hdp) hneg hpos⟩

/-- Witness for C5: the amended theorem applied to the degenerate
zero-thickness configuration with an empty reaction registry. -/
theorem C5_witness :
    ∃ res, getCoupledVariables degParams [] baseStore = .ok res :=
  C5_no_degeneracy_guard degParams [] baseStore rfl rfl rfl rfl rfl rfl rfl rfl
    (by simp)

/-- Claim C6: if any reaction in the registry declares a current-density
name whose domain-qualified key is absent from the VariableStore, then
get_coupled_variables propagates a lookup error naming an absent key; the
error result carries no Result and no updated store, so no first-order
field has been added. -/
theorem C6_missing_reaction_error (param : Params) (reactions : List Reaction)
    (vars : Store) (r : Reaction)
    (h1 : (vars.get "Leading-order cell temperature").isSome = true)
    (h2 : (vars.get "Leading-order x-averaged electrolyte concentration").isSome = true)
    (h3 : (vars.get "Leading-order electrolyte concentration change").isSome = true)
    (h4 : (vars.get "Leading-order x-averaged negative electrode porosity").isSome = true)
    (h5 : (vars.get "Leading-order x-averaged separator porosity").isSome = true)
    (h6 : (vars.get "Leading-order x-averaged positive electrode porosity").isSome = true)
    (h7 : (vars.get
      "Leading-order x-averaged negative electrode porosity change").isSome = true)
    (h8 : (vars.get
      "Leading-order x-averaged positive electrode porosity change").isSome = true)
    (hmem : r ∈ reactions)
    (hmiss : vars.get (qualifiedKey r.neg.aj) = none ∨
      vars.get (qualifiedKey r.pos.aj) = none) :
    ∃ k, getCoupledVariables param reactions vars = .error k ∧
      vars.get k = none := by
  obtain ⟨t, ht⟩ := Option.isSome_iff_exists.mp h1
  obtain ⟨c, hc⟩ := Option.isSome_iff_exists.mp h2
  obtain ⟨dc, hdc⟩ := Option.isSome_iff_exists.mp h3
  obtain ⟨en, hen⟩ := Option.isSome_iff_exists.mp h4
  obtain ⟨es, hes⟩ := Option.isSome_iff_exists.mp h5
  obtain ⟨ep, hep⟩ := Option.isSome_iff_exists.mp h6
  obtain ⟨dn, hdn⟩ := Option.isSome_iff_exists.mp h7
  obtain ⟨dp, hdp⟩ := Option.isSome_iff_exists.mp h8
  have hup := unpack_eq_ok ht hc hdc hen hes hep hdn hdp
  rcases hmiss with hn | hp
  · obtain ⟨k, hk, hkn⟩ :=
      reactionSum_error_of_missing vars (fun r2 => r2.neg) reactions r hmem hn
    exact ⟨k, by simp [getCoupledVariables, hup, hk], hkn⟩
  · cases hneg : reactionSum vars (fun r2 => r2.neg) reactions with
    | error k =>
      exact ⟨k, by simp [getCoupledVariables, hup, hneg],
        reactionSum_error_get_none vars (fun r2 => r2.neg) reactions k hneg⟩
    | ok q =>
      obtain ⟨k, hk, hkn⟩ :=
        reactionSum_error_of_missing vars (fun r2 => r2.pos) reactions r hmem hp
      exact ⟨k, by simp [getCoupledVariables, hup, hneg, hk], hkn⟩

/-- A registry entry whose qualified key is absent from baseStore. -/
def missingReaction : Reaction :=
  ⟨⟨1, "Oxygen interfacial current density"⟩,
   ⟨1, "Oxygen interfacial current density"⟩⟩

/-- Witness for C6: a registry with one reaction whose current-density key
is not in the store makes get_coupled_variables fail with a lookup error
naming an absent key. -/
theorem C6_witness :
    ∃ k, getCoupledVariables okParams [missingReaction] baseStore = .error k ∧
      baseStore.get k = none :=
  C6_missing_reaction_error okParams [missingReaction] baseStore missingReaction
    rfl rfl rfl rfl rfl rfl rfl rfl (by simp) (Or.inl (by decide))

/-- Claim C7: in the literal zero-input scenario (porosities 1, zero
leading-order time derivatives, every reaction current-density value zero)
the correction constant is zero, all three corrected first-order profiles
and averages are zero, the corrected concentration PiecewiseField equals
the leading-order concentration everywhere, and the flux PiecewiseField is
zero everywhere. -/
theorem C7_zero_input_scenario (param : Params) (reactions : List Reaction)
    (vars : Store) (T_0 c_e_0 : ℚ)
    (hT : vars.get "Leading-order cell temperature" = some T_0)
    (hc : vars.get "Leading-order x-averaged electrolyte concentration" = some c_e_0)
    (hdc : vars.get "Leading-order electrolyte concentration change" = some 0)
    (hen : vars.get "Leading-order x-averaged negative electrode porosity" = some 1)
    (hes : vars.get "Leading-order x-averaged separator porosity" = some 1)
    (hep : vars.get "Leading-order x-averaged positive electrode porosity" = some 1)
    (hdn : vars.get
      "Leading-order x-averaged negative electrode porosity change" = some 0)
    (hdp : vars.get
      "Leading-order x-averaged positive electrode porosity change" = some 0)
    (hr : ∀ r ∈ reactions, vars.get (qualifiedKey r.neg.aj) = some 0 ∧
      vars.get (qualifiedKey r.pos.aj) = some 0) :
    ∃ res, getCoupledVariables param reactions vars = .ok res ∧
      res.A_e = 0 ∧
      (∀ x, res.c_e_n_1 x = 0) ∧ (∀ x, res.c_e_s_1 x = 0) ∧
      (∀ x, res.c_e_p_1 x = 0) ∧
      res.c_e_n_1_av = 0 ∧ res.c_e_s_1_av = 0 ∧ res.c_e_p_1_av = 0 ∧
      (∀ x, res.c_e x = c_e_0) ∧ (∀ x, res.N_e x = 0) := by
  have hup := unpack_eq_ok hT hc hdc hen hes hep hdn hdp
  have hneg := reactionSum_all_zero vars (fun r2 => r2.neg) reactions
    (fun r2 h2 => (hr r2 h2).1)
  have hpos := reactionSum_all_zero vars (fun r2 => r2.pos) reactions
    (fun r2 h2 => (hr r2 h2).2)
  refine ⟨_, getCoupledVariables_eq_ok param reactions vars _ 0 0 hup hneg hpos,
    ?_, ?_, ?_, ?_, ?_, ?_, ?_, ?_, ?_⟩ <;>
    simp [assemble, A_e, c_e_n_1_av, c_e_s_1_av, c_e_p_1_av,
      c_e_n_1_corr, c_e_s_1_corr, c_e_p_1_corr, c_e_n_1, c_e_s_1, c_e_p_1,
      c_e_n_1_av_corr, c_e_s_1_av_corr, c_e_p_1_av_corr,
      N_e_n_1, N_e_s_1, N_e_p_1, cat3,
      d_epsc_n_0_dt, d_epsc_s_0_dt, d_epsc_p_0_dt]

/-- baseStore extended with a zero current-density entry for the reaction
registry used by the C7 witness. -/
def zeroStore : Store :=
  ("Leading-order x-averaged main interfacial current density", 0) :: baseStore

/-- A registry entry whose current-density values are present in zeroStore
and equal to zero on both sides. -/
def zeroReaction : Reaction :=
  ⟨⟨3, "Main interfacial current density"⟩,
   ⟨-2, "Main interfacial current density"⟩⟩

/-- Witness for C7: the zero-input scenario run on a concrete store with
leading-order concentration 5, porosities 1, zero derivatives and one
reaction whose current density is zero. -/
theorem C7_witness :
    ∃ res, getCoupledVariables okParams [zeroReaction] zeroStore = .ok res ∧
      res.A_e = 0 ∧
      (∀ x, res.c_e_n_1 x = 0) ∧ (∀ x, res.c_e_s_1 x = 0) ∧
      (∀ x, res.c_e_p_1 x = 0) ∧
      res.c_e_n_1_av = 0 ∧ res.c_e_s_1_av = 0 ∧ res.c_e_p_1_av = 0 ∧
      (∀ x, res.c_e x = 5) ∧ (∀ x, res.N_e x = 0) :=
  C7_zero_input_scenario okParams [zeroReaction] zeroStore 2 5
    (by decide) (by decide) (by decide) (by decide) (by decide) (by decide)
    (by decide) (by decide) (by decide)

/-- Claim C10, as frozen, demands a fatal configuration error when
get_exchange_current_densities is called with an unrecognized domain. The
code of MainReaction instead falls off the end of its if/elif chain and
silently returns None. -/
theorem C10_counterexample :
    MainReaction.get_exchange_current_densities
      ⟨1, 2, fun c => c + 1, 3, 4, 5⟩ 1 ["current collector"] = none := by
  decide

/-- Claim C10 (amended): for any domain that is neither the negative nor
the positive electrode (including the separator and anything outside the
three sub-domains), MainReaction.get_exchange_current_densities silently
returns None, and SrinivasanOxygenReaction.get_exchange_current_densities
fails, but with an accidental unbound-local error on its j0_Ox_ref
variable rather than a deliberate configuration error. -/
theorem C10_unknown_domain_amended (param : LeadAcidParams) (c_e c_o : ℚ)
    (domain : List String)
    (hn : domain ≠ ["negative electrode"])
    (hp : domain ≠ ["positive electrode"]) :
    MainReaction.get_exchange_current_densities param c_e domain = none ∧
    SrinivasanOxygenReaction.get_exchange_current_densities param c_e c_o domain
      = .error "UnboundLocalError: j0_Ox_ref referenced before assignment" := by
  constructor
  · simp [MainReaction.get_exchange_current_densities, hn, hp]
  · simp [SrinivasanOxygenReaction.get_exchange_current_densities,
      SrinivasanOxygenReaction.j0_Ox_ref, hn, hp]

/-- Witness for C10: the amended theorem applied at the separator domain. -/
theorem C10_witness :
    (["separator"] ≠ ["negative electrode"]) ∧
    (["separator"] ≠ ["positive electrode"]) ∧
    (MainReaction.get_exchange_current_densities
        ⟨1, 2, fun c => c + 1, 3, 4, 5⟩ 2 ["separator"] = none ∧
      SrinivasanOxygenReaction.get_exchange_current_densities
        ⟨1, 2, fun c => c + 1, 3, 4, 5⟩ 2 3 ["separator"]
        = .error "UnboundLocalError: j0_Ox_ref referenced before assignment") :=
  ⟨by decide, by decide,
    C10_unknown_domain_amended ⟨1, 2, fun c => c + 1, 3, 4, 5⟩ 2 3 ["separator"]
      (by decide) (by decide)⟩

end PyBaMM
